import Mathlib

/-!
HighLevelGpuProgramManager.

A shallow embedding of `OgreMain/src/OgreHighLevelGpuProgramManager.cpp`:
the factory registry (`addFactory`, `removeFactory`, `getFactory`,
`isLanguageSupported`), the null fallback classes (`NullProgram`,
`NullProgramFactory`) and the two creation paths (`createImpl`,
`createProgram`).

Conventions of the embedding.

* A `HighLevelGpuProgramFactory*` is a value carrying the address of the
  object (`addr`) next to what its virtual methods answer.  The C++ pointer
  comparison `it->second == factory` is the comparison of the two addresses.
* `std::map<String, T>` is a partial function from keys to values; `find`
  answering `end()` is `none`.
* Dereferencing `end()` has no defined result: `getFactory` answers `none`
  there, and the creation paths answer `Failure.endDereferenced`.
* `OGRE_EXCEPT` is an explicit `Failure.exception` result; the state in which
  the exception leaves the manager is returned next to it.
-/

namespace Ogre

/-! ## Data model -/

/-- The reserved null language name: `String sNullLang = "null";`. -/
def sNullLang : String := "null"

/-- Resource handles, allocated from a counter of the resource manager. -/
abbrev ResourceHandle := Nat

/-- Address of a `ResourceManager` (the `creator` of a resource). -/
abbrev ResourceManagerPtr := Nat

/-- Address of a `ManualResourceLoader`; the C++ parameter is a pointer that
may be `0`, hence it is always used under `Option`. -/
abbrev ManualResourceLoader := Nat

/-- Modelled from the spec: the enumeration `GpuProgramType` is declared in a
header outside the source; the spec names vertex, fragment and compute
programs. -/
inductive GpuProgramType where
  | GPT_VERTEX_PROGRAM
  | GPT_FRAGMENT_PROGRAM
  | GPT_COMPUTE_PROGRAM
deriving DecidableEq

/-- Dynamic class of a program object.  `NullProgram` is the class defined in
the source; `external` stands for a class defined by a plugin, with what its
overrides of `isSupported`, `getLanguage` and `calculateSize` answer. -/
inductive ProgramClass where
  | NullProgram
  | external (supported : Bool) (language : String) (size : Nat)
deriving DecidableEq

/-- A program object: the fields handed to the `GpuProgram` base constructor,
the type and syntax code kept by the base class, and the dynamic class. -/
structure GpuProgram where
  cls : ProgramClass
  creator : ResourceManagerPtr
  name : String
  handle : ResourceHandle
  group : String
  isManual : Bool
  loader : Option ManualResourceLoader
  mType : GpuProgramType
  mSyntaxCode : String
deriving DecidableEq

/-- Modelled from the spec: the `GpuProgram` base-class constructor is outside
the source.  It records the six constructor arguments; the type and syntax
code start at vertex program and the empty string until they are assigned. -/
def GpuProgram.ctor (cls : ProgramClass) (creator : ResourceManagerPtr) (name : String)
    (handle : ResourceHandle) (group : String) (isManual : Bool)
    (loader : Option ManualResourceLoader) : GpuProgram :=
  { cls := cls, creator := creator, name := name, handle := handle, group := group,
    isManual := isManual, loader := loader,
    mType := GpuProgramType.GPT_VERTEX_PROGRAM, mSyntaxCode := "" }

/-- Modelled from the spec: `GpuProgram::setType` is outside the source; it
assigns the declared type. -/
def GpuProgram.setType (prg : GpuProgram) (t : GpuProgramType) : GpuProgram :=
  { prg with mType := t }

/-- Modelled from the spec: `GpuProgram::setSyntaxCode` is outside the source;
it assigns the syntax/language tag. -/
def GpuProgram.setSyntaxCode (prg : GpuProgram) (syntaxCode : String) : GpuProgram :=
  { prg with mSyntaxCode := syntaxCode }

/-! ## NullProgram -/

namespace NullProgram

/-- Constructor `NullProgram(creator, name, handle, group, isManual, loader)`:
it only forwards to the base constructor. -/
def new (creator : ResourceManagerPtr) (name : String) (handle : ResourceHandle)
    (group : String) (isManual : Bool) (loader : Option ManualResourceLoader) : GpuProgram :=
  GpuProgram.ctor ProgramClass.NullProgram creator name handle group isManual loader

/-- Source: `void loadFromSource(void) {}`. -/
def loadFromSource (self : GpuProgram) : GpuProgram := self

/-- Source: `void unloadImpl() {}`. -/
def unloadImpl (self : GpuProgram) : GpuProgram := self

/-- Source: `bool isSupported(void) const { return false; }`. -/
def isSupported (_self : GpuProgram) : Bool := false

/-- Source: `const String& getLanguage(void) const { return sNullLang; }`. -/
def getLanguage (_self : GpuProgram) : String := sNullLang

/-- Source: `size_t calculateSize(void) const { return 0; }`. -/
def calculateSize (_self : GpuProgram) : Nat := 0

/-- Source: `bool setParameter(const String& name, const String& value)`:
returns `true` and leaves the object as it is. -/
def setParameter (self : GpuProgram) (_name _value : String) : Bool × GpuProgram :=
  (true, self)

end NullProgram

/-- Virtual call `prg->isSupported()`. -/
def GpuProgram.isSupported (prg : GpuProgram) : Bool :=
  match prg.cls with
  | ProgramClass.NullProgram => NullProgram.isSupported prg
  | ProgramClass.external supported _ _ => supported

/-- Virtual call `prg->getLanguage()`. -/
def GpuProgram.getLanguage (prg : GpuProgram) : String :=
  match prg.cls with
  | ProgramClass.NullProgram => NullProgram.getLanguage prg
  | ProgramClass.external _ language _ => language

/-- Virtual call `prg->calculateSize()`. -/
def GpuProgram.calculateSize (prg : GpuProgram) : Nat :=
  match prg.cls with
  | ProgramClass.NullProgram => NullProgram.calculateSize prg
  | ProgramClass.external _ _ size => size

/-! ## Factories -/

/-- A factory object behind a `HighLevelGpuProgramFactory*`: its address, what
`getLanguage()` answers, and its `create` method. -/
structure HighLevelGpuProgramFactory where
  addr : Nat
  getLanguage : String
  create : ResourceManagerPtr → String → ResourceHandle → String → Bool →
    Option ManualResourceLoader → GpuProgram

/-- Pointer comparison `a == b` of two factory pointers. -/
def HighLevelGpuProgramFactory.ptrEq (a b : HighLevelGpuProgramFactory) : Bool :=
  a.addr == b.addr

/-- The class `NullProgramFactory`, instantiated at address `addr`:
`getLanguage` returns `sNullLang` and `create` builds a `NullProgram` from its
arguments. -/
def NullProgramFactory (addr : Nat) : HighLevelGpuProgramFactory :=
  { addr := addr
    getLanguage := sNullLang
    create := fun creator name handle group isManual loader =>
      NullProgram.new creator name handle group isManual loader }

/-- The map type `std::map<String, HighLevelGpuProgramFactory*>`. -/
abbrev FactoryMap := String → Option HighLevelGpuProgramFactory

namespace FactoryMap

/-- The map with no entry. -/
def empty : FactoryMap := fun _ => none

/-- Lookup `m.find(key)`; `none` is `m.end()`. -/
def find (m : FactoryMap) (key : String) : Option HighLevelGpuProgramFactory := m key

/-- Assignment `m[key] = value`. -/
def assign (m : FactoryMap) (key : String) (value : HighLevelGpuProgramFactory) : FactoryMap :=
  fun k => if k = key then some value else m k

/-- Removal `m.erase(it)` of the entry stored under `key`. -/
def erase (m : FactoryMap) (key : String) : FactoryMap :=
  fun k => if k = key then none else m k

/-- The call `m.find(key)` as a transition of the map: the entry found, and
the map after the call, which `find` leaves as it is. -/
def findCall (m : FactoryMap) (key : String) :
    Option HighLevelGpuProgramFactory × FactoryMap :=
  (find m key, m)

/-- Every entry is stored under the language of its factory. -/
def keysAreLanguages (m : FactoryMap) : Prop :=
  ∀ key f, find m key = some f → f.getLanguage = key

end FactoryMap

/-- The parameter list `NameValuePairList` (`std::map<String, String>`), given
by its entries; `find` returns the value of the first entry with the key. -/
abbrev NameValuePairList := List (String × String)

/-- Lookup `params->find(key)`; `none` is `params->end()`. -/
def NameValuePairList.find (params : NameValuePairList) (key : String) : Option String :=
  List.lookup key params

/-- The resource cache of the manager, keyed by group and name. -/
abbrev ResourceMap := String → String → Option GpuProgram

/-- A `ResourcePtr` / `HighLevelGpuProgramPtr`: a shared pointer that may be
empty. -/
abbrev ResourcePtr := Option GpuProgram

/-- Modelled from the spec: `ResourceGroupManager` is outside the source.  It
keeps which manager handles which resource type and the resources it was
notified of, oldest first. -/
structure ResourceGroupManager where
  mResourceManagerMap : String → Option ResourceManagerPtr
  mCreated : List GpuProgram

/-- Modelled from the spec: `_registerResourceManager` is outside the source;
the manager registers itself as the handler of a named resource type. -/
def ResourceGroupManager._registerResourceManager (rgm : ResourceGroupManager)
    (resourceType : String) (rm : ResourceManagerPtr) : ResourceGroupManager :=
  { rgm with mResourceManagerMap :=
      fun t => if t = resourceType then some rm else rgm.mResourceManagerMap t }

/-- Modelled from the spec: `_unregisterResourceManager` is outside the source;
the handler of the named resource type is dropped. -/
def ResourceGroupManager._unregisterResourceManager (rgm : ResourceGroupManager)
    (resourceType : String) : ResourceGroupManager :=
  { rgm with mResourceManagerMap :=
      fun t => if t = resourceType then none else rgm.mResourceManagerMap t }

/-- Modelled from the spec: `_notifyResourceCreated` is outside the source; the
collaborator is told that a new resource was created. -/
def ResourceGroupManager._notifyResourceCreated (rgm : ResourceGroupManager)
    (res : GpuProgram) : ResourceGroupManager :=
  { rgm with mCreated := rgm.mCreated ++ [res] }

/-- The manager: the fields of this class and those of the `ResourceManager`
base class that the source reads or writes. -/
structure HighLevelGpuProgramManager where
  this : ResourceManagerPtr
  mLoadOrder : Nat
  mResourceType : String
  mNullFactory : HighLevelGpuProgramFactory
  mUnifiedFactory : HighLevelGpuProgramFactory
  mFactories : FactoryMap
  mNextHandle : ResourceHandle
  mResources : ResourceMap

/-- Exception codes raised by this file. -/
inductive ExceptionCodes where
  | ERR_INVALIDPARAMS
deriving DecidableEq

/-- How a call can end without a result: an `OGRE_EXCEPT` exception (code,
description, source) or the dereference of an `end()` iterator. -/
inductive Failure where
  | exception (code : ExceptionCodes) (description : String) (source : String)
  | endDereferenced
deriving DecidableEq

/-! ## The manager -/

namespace HighLevelGpuProgramManager

/-- Modelled from the spec: `ResourceManager::getNextHandle` is outside the
source.  It hands out the value of the next-handle counter and advances the
counter by one. -/
def getNextHandle (self : HighLevelGpuProgramManager) :
    ResourceHandle × HighLevelGpuProgramManager :=
  (self.mNextHandle, { self with mNextHandle := self.mNextHandle + 1 })

/-- Modelled from the spec: `ResourceManager::addImpl` is outside the source.
It inserts the resource into the cache under its name and group; an empty
pointer inserts nothing.  The pointer is passed by reference and is handed
back. -/
def addImpl (self : HighLevelGpuProgramManager) (res : ResourcePtr) :
    ResourcePtr × HighLevelGpuProgramManager :=
  match res with
  | none => (none, self)
  | some r =>
    (some r, { self with mResources :=
      fun g n => if g = r.group ∧ n = r.name then some r else self.mResources g n })

/-- Modelled from the spec: `ResourceManager::getResourceByName` is outside the
source.  It returns the cached resource for the name and group, or an empty
pointer. -/
def getResourceByName (self : HighLevelGpuProgramManager) (name groupName : String) :
    ResourcePtr :=
  self.mResources groupName name

/-- Source, lines 113-117: `mFactories[factory->getLanguage()] = factory;`. -/
def addFactory (self : HighLevelGpuProgramManager) (factory : HighLevelGpuProgramFactory) :
    HighLevelGpuProgramManager :=
  { self with mFactories := FactoryMap.assign self.mFactories factory.getLanguage factory }

/-- Source, lines 119-128: the entry found under `factory->getLanguage()` is
erased when it exists and holds the same pointer as `factory`. -/
def removeFactory (self : HighLevelGpuProgramManager) (factory : HighLevelGpuProgramFactory) :
    HighLevelGpuProgramManager :=
  match FactoryMap.find self.mFactories factory.getLanguage with
  | some second =>
    if second.ptrEq factory then
      { self with mFactories := FactoryMap.erase self.mFactories factory.getLanguage }
    else self
  | none => self

/-- Source, lines 130-140: look `language` up; at `end()` look `sNullLang` up
instead; return `i->second`.  The result is `none` when the iterator that is
dereferenced is `end()`. -/
def getFactory (self : HighLevelGpuProgramManager) (language : String) :
    Option HighLevelGpuProgramFactory :=
  match FactoryMap.find self.mFactories language with
  | some second => some second
  | none => FactoryMap.find self.mFactories sNullLang

/-- Source, lines 142-145: `mFactories.find(lang) != mFactories.end()`. -/
def isLanguageSupported (self : HighLevelGpuProgramManager) (lang : String) : Bool :=
  (FactoryMap.find self.mFactories lang).isSome

/-- The exception raised by `createImpl`. -/
def languageParameterMissing : Failure :=
  Failure.exception ExceptionCodes.ERR_INVALIDPARAMS
    "You must supply a \x27language\x27 parameter"
    "HighLevelGpuProgramManager::createImpl"

/-- Source, lines 147-162.  The exception is raised when `params` is null or
has no `"language"` key; otherwise the factory of the language builds the
object with a handle taken from `getNextHandle()` (the `handle` argument is
not read). -/
def createImpl (self : HighLevelGpuProgramManager) (name : String) (_handle : ResourceHandle)
    (group : String) (isManual : Bool) (loader : Option ManualResourceLoader)
    (params : Option NameValuePairList) :
    Except Failure GpuProgram × HighLevelGpuProgramManager :=
  match params with
  | none => (Except.error languageParameterMissing, self)
  | some p =>
    match NameValuePairList.find p "language" with
    | none => (Except.error languageParameterMissing, self)
    | some language =>
      match getFactory self language with
      | none => (Except.error Failure.endDereferenced, self)
      | some factory =>
        (Except.ok (factory.create self.this name (getNextHandle self).1 group isManual loader),
          (getNextHandle self).2)

/-- Source, lines 164-167: a typed view of `getResourceByName`. -/
def getByName (self : HighLevelGpuProgramManager) (name groupName : String) : ResourcePtr :=
  getResourceByName self name groupName

/-- Source, lines 169-183: build the program with the factory of `language`
(not manual, no loader), set type and syntax code, add it to the cache and,
when the pointer is not empty, notify the resource group manager. -/
def createProgram (self : HighLevelGpuProgramManager) (rgm : ResourceGroupManager)
    (name groupName language : String) (gptype : GpuProgramType) :
    Except Failure ResourcePtr × HighLevelGpuProgramManager × ResourceGroupManager :=
  match getFactory self language with
  | none => (Except.error Failure.endDereferenced, self, rgm)
  | some factory =>
    let prg := factory.create self.this name (getNextHandle self).1 groupName false none
    let prg := prg.setType gptype
    let prg := prg.setSyntaxCode language
    let added := addImpl (getNextHandle self).2 (some prg)
    match added.1 with
    | some ret => (Except.ok (some ret), added.2, rgm._notifyResourceCreated ret)
    | none => (Except.ok none, added.2, rgm)

/-- Source, lines 93-106, the constructor: load order and resource type are
set, the manager registers itself with the resource group manager, then the
null factory and the unified factory are created and added, in this order.
`nullAddr` is the address of the new `NullProgramFactory`; the class
`UnifiedHighLevelGpuProgramFactory` is outside the source, so the new object
of that class is the argument `unified`. -/
def ctor (this : ResourceManagerPtr) (nullAddr : Nat) (unified : HighLevelGpuProgramFactory)
    (rgm : ResourceGroupManager) : HighLevelGpuProgramManager × ResourceGroupManager :=
  let self0 : HighLevelGpuProgramManager :=
    { this := this
      mLoadOrder := 50
      mResourceType := "HighLevelGpuProgram"
      mNullFactory := NullProgramFactory nullAddr
      mUnifiedFactory := unified
      mFactories := FactoryMap.empty
      mNextHandle := 1
      mResources := fun _ _ => none }
  let self1 := addFactory self0 self0.mNullFactory
  let self2 := addFactory self1 self1.mUnifiedFactory
  (self2, rgm._registerResourceManager self0.mResourceType this)

/-- Source, lines 108-111, the destructor. -/
def dtor (self : HighLevelGpuProgramManager) (rgm : ResourceGroupManager) : ResourceGroupManager :=
  rgm._unregisterResourceManager self.mResourceType

/-- The program that `createProgram` hands to `addImpl` when `factory` is the
factory of the language: built by `factory->create(this, name,
getNextHandle(), groupName, false, 0)`, then given the type and the syntax
code (source, lines 173-175). -/
def builtProgram (self : HighLevelGpuProgramManager) (factory : HighLevelGpuProgramFactory)
    (name groupName language : String) (gptype : GpuProgramType) : GpuProgram :=
  ((factory.create self.this name (getNextHandle self).1 groupName false none).setType
    gptype).setSyntaxCode language

/-- Source, lines 130-140, as a transition of the manager.  The method is not
`const`, so the manager after the call is returned next to the factory; the
body reaches the registry through `find` only. -/
def getFactoryCall (self : HighLevelGpuProgramManager) (language : String) :
    Option HighLevelGpuProgramFactory × HighLevelGpuProgramManager :=
  let i := FactoryMap.findCall self.mFactories language
  match i.1 with
  | some second => (some second, { self with mFactories := i.2 })
  | none =>
    let j := FactoryMap.findCall i.2 sNullLang
    (j.1, { self with mFactories := j.2 })

/-- Source, lines 142-145, as a transition of the manager: the answer and the
manager after the call. -/
def isLanguageSupportedCall (self : HighLevelGpuProgramManager) (lang : String) :
    Bool × HighLevelGpuProgramManager :=
  let i := FactoryMap.findCall self.mFactories lang
  (i.1.isSome, { self with mFactories := i.2 })

end HighLevelGpuProgramManager

/-! ## Sequences of registry calls -/

/-- One call of the registration interface. -/
inductive RegistryCall where
  | addFactory (factory : HighLevelGpuProgramFactory)
  | removeFactory (factory : HighLevelGpuProgramFactory)

/-- The factory a call is made with. -/
def RegistryCall.factory : RegistryCall → HighLevelGpuProgramFactory
  | RegistryCall.addFactory f => f
  | RegistryCall.removeFactory f => f

/-- The manager after one call. -/
def RegistryCall.run (self : HighLevelGpuProgramManager) : RegistryCall → HighLevelGpuProgramManager
  | RegistryCall.addFactory f => self.addFactory f
  | RegistryCall.removeFactory f => self.removeFactory f

/-- The manager after a finite sequence of calls, first call first. -/
def runCalls (self : HighLevelGpuProgramManager) (calls : List RegistryCall) :
    HighLevelGpuProgramManager :=
  calls.foldl RegistryCall.run self

/-- A call that leaves the null-language entry alone when that entry holds the
null factory at address `nullAddr`: an `addFactory` of a factory of another
language, or a `removeFactory` of a factory that is of another language or is
not the null factory itself. -/
def RegistryCall.sparesNullEntry (nullAddr : Nat) : RegistryCall → Bool
  | RegistryCall.addFactory f => decide (f.getLanguage ≠ sNullLang)
  | RegistryCall.removeFactory f =>
    decide (f.getLanguage ≠ sNullLang) || decide (f.addr ≠ nullAddr)

/-! ## Concrete objects used in examples -/

/-- A plugin factory: its programs are of an external class that reports
itself supported. -/
def pluginFactory (addr : Nat) (language : String) : HighLevelGpuProgramFactory :=
  { addr := addr
    getLanguage := language
    create := fun creator name handle group isManual loader =>
      GpuProgram.ctor (ProgramClass.external true language 0) creator name handle group
        isManual loader }

/-- A resource group manager that knows no resource type and no resource. -/
def emptyResourceGroupManager : ResourceGroupManager :=
  { mResourceManagerMap := fun _ => none, mCreated := [] }

/-- A freshly constructed manager: the null factory at address 1, and a
unified factory at address 2 whose language is "unified". -/
def freshManager : HighLevelGpuProgramManager :=
  (HighLevelGpuProgramManager.ctor 0 1 (pluginFactory 2 "unified") emptyResourceGroupManager).1

/-- A manager in which a plugin factory of the language "null" (address 3) has
replaced the null factory as the null-language entry. -/
def overriddenManager : HighLevelGpuProgramManager :=
  runCalls freshManager [RegistryCall.addFactory (pluginFactory 3 "null")]

/-- A manager without a null-language entry: the plugin factory of the
language "null" was added and then removed again. -/
def strippedManager : HighLevelGpuProgramManager :=
  runCalls freshManager
    [RegistryCall.addFactory (pluginFactory 3 "null"),
     RegistryCall.removeFactory (pluginFactory 3 "null")]

/-- A manager in which "hlsl" was registered twice: first the factory at
address 4, then the factory at address 5. -/
def hlslTwiceManager : HighLevelGpuProgramManager :=
  runCalls freshManager
    [RegistryCall.addFactory (pluginFactory 4 "hlsl"),
     RegistryCall.addFactory (pluginFactory 5 "hlsl")]

/-- The freshly constructed manager after `createProgram("foo", "General",
"glsl", fragment program)`, no factory being registered for "glsl". -/
def fooManager : HighLevelGpuProgramManager :=
  (HighLevelGpuProgramManager.createProgram freshManager emptyResourceGroupManager "foo"
    "General" "glsl" GpuProgramType.GPT_FRAGMENT_PROGRAM).2.1

/-- The null program which that call builds: handle 1, fragment program,
syntax code "glsl". -/
def fooProgram : GpuProgram :=
  ((NullProgram.new 0 "foo" 1 "General" false none).setType
    GpuProgramType.GPT_FRAGMENT_PROGRAM).setSyntaxCode "glsl"

/-- A sequence of calls that spares the null-language entry of a manager whose
null factory is at address 1. -/
def sparingCalls : List RegistryCall :=
  [RegistryCall.addFactory (pluginFactory 4 "hlsl"),
   RegistryCall.removeFactory (pluginFactory 6 "null"),
   RegistryCall.removeFactory (pluginFactory 4 "hlsl"),
   RegistryCall.removeFactory (pluginFactory 2 "unified")]

end Ogre

namespace Ogre

open HighLevelGpuProgramManager

/-! ## Lemmas on the registry map -/

theorem FactoryMap.find_assign_same (m : FactoryMap) (key : String)
    (value : HighLevelGpuProgramFactory) :
    FactoryMap.find (FactoryMap.assign m key value) key = some value := by
  simp [FactoryMap.find, FactoryMap.assign]

theorem FactoryMap.find_assign_other (m : FactoryMap) (key k : String)
    (value : HighLevelGpuProgramFactory) (hk : k ≠ key) :
    FactoryMap.find (FactoryMap.assign m key value) k = FactoryMap.find m k := by
  simp [FactoryMap.find, FactoryMap.assign, hk]

theorem FactoryMap.find_erase_same (m : FactoryMap) (key : String) :
    FactoryMap.find (FactoryMap.erase m key) key = none := by
  simp [FactoryMap.find, FactoryMap.erase]

theorem FactoryMap.find_erase_other (m : FactoryMap) (key k : String) (hk : k ≠ key) :
    FactoryMap.find (FactoryMap.erase m key) k = FactoryMap.find m k := by
  simp [FactoryMap.find, FactoryMap.erase, hk]

theorem HighLevelGpuProgramFactory.ptrEq_iff (a b : HighLevelGpuProgramFactory) :
    a.ptrEq b = true ↔ a.addr = b.addr := by
  simp [HighLevelGpuProgramFactory.ptrEq]

/-- When the entry under the language of `factory` holds the same pointer,
`removeFactory` erases that entry. -/
theorem HighLevelGpuProgramManager.removeFactory_of_same (self : HighLevelGpuProgramManager)
    (factory second : HighLevelGpuProgramFactory)
    (hfind : FactoryMap.find self.mFactories factory.getLanguage = some second)
    (hsame : second.addr = factory.addr) :
    removeFactory self factory =
      { self with mFactories := FactoryMap.erase self.mFactories factory.getLanguage } := by
  have hp : second.ptrEq factory = true := (second.ptrEq_iff factory).2 hsame
  simp [removeFactory, hfind, hp]

/-- When the entry under the language of `factory` holds another pointer,
`removeFactory` changes nothing. -/
theorem HighLevelGpuProgramManager.removeFactory_of_other (self : HighLevelGpuProgramManager)
    (factory second : HighLevelGpuProgramFactory)
    (hfind : FactoryMap.find self.mFactories factory.getLanguage = some second)
    (hother : second.addr ≠ factory.addr) :
    removeFactory self factory = self := by
  have hp : second.ptrEq factory = false := by
    cases h : second.ptrEq factory
    · rfl
    · exact absurd ((second.ptrEq_iff factory).1 h) hother
  simp [removeFactory, hfind, hp]

/-- When there is no entry under the language of `factory`, `removeFactory`
changes nothing. -/
theorem HighLevelGpuProgramManager.removeFactory_of_absent (self : HighLevelGpuProgramManager)
    (factory : HighLevelGpuProgramFactory)
    (hfind : FactoryMap.find self.mFactories factory.getLanguage = none) :
    removeFactory self factory = self := by
  simp [removeFactory, hfind]

/-- An entry under another key is the same before and after `removeFactory`. -/
theorem HighLevelGpuProgramManager.find_removeFactory_other (self : HighLevelGpuProgramManager)
    (factory : HighLevelGpuProgramFactory) (k : String) (hk : k ≠ factory.getLanguage) :
    FactoryMap.find (removeFactory self factory).mFactories k
      = FactoryMap.find self.mFactories k := by
  unfold removeFactory
  cases hfind : FactoryMap.find self.mFactories factory.getLanguage with
  | none => rfl
  | some second =>
    cases hp : second.ptrEq factory
    · simp [hp]
    · simp [hp, FactoryMap.find_erase_other _ _ _ hk]

/-- An entry under another key is the same before and after `addFactory`. -/
theorem HighLevelGpuProgramManager.find_addFactory_other (self : HighLevelGpuProgramManager)
    (factory : HighLevelGpuProgramFactory) (k : String) (hk : k ≠ factory.getLanguage) :
    FactoryMap.find (addFactory self factory).mFactories k
      = FactoryMap.find self.mFactories k := by
  simp [addFactory, FactoryMap.find_assign_other _ _ _ _ hk]

/-- After `addFactory`, the entry under the language of the factory is the
factory. -/
theorem HighLevelGpuProgramManager.find_addFactory_same (self : HighLevelGpuProgramManager)
    (factory : HighLevelGpuProgramFactory) :
    FactoryMap.find (addFactory self factory).mFactories factory.getLanguage = some factory := by
  simp [addFactory, FactoryMap.find_assign_same]

/-- The result of `getFactory` for a language that has an entry. -/
theorem HighLevelGpuProgramManager.getFactory_of_entry (self : HighLevelGpuProgramManager)
    (language : String) (second : HighLevelGpuProgramFactory)
    (hfind : FactoryMap.find self.mFactories language = some second) :
    getFactory self language = some second := by
  simp [getFactory, hfind]

/-- The result of `getFactory` for a language that has no entry. -/
theorem HighLevelGpuProgramManager.getFactory_of_absent (self : HighLevelGpuProgramManager)
    (language : String) (hfind : FactoryMap.find self.mFactories language = none) :
    getFactory self language = FactoryMap.find self.mFactories sNullLang := by
  simp [getFactory, hfind]

/-! ## Lookup of a language that has no entry -/

/-- C1: in every manager state whose registry has an entry for the reserved
null language, a language string that has no entry of its own is resolved by
`getFactory` to the factory stored under the null language, and
`isLanguageSupported` answers false for it. -/
theorem getFactory_unregistered_language (self : HighLevelGpuProgramManager) (lang : String)
    (nullEntry : HighLevelGpuProgramFactory)
    (hnull : FactoryMap.find self.mFactories sNullLang = some nullEntry)
    (hlang : FactoryMap.find self.mFactories lang = none) :
    getFactory self lang = some nullEntry ∧ isLanguageSupported self lang = false := by
  constructor
  · rw [getFactory_of_absent self lang hlang, hnull]
  · simp [isLanguageSupported, hlang]

/-- Witness of C1: the freshly constructed manager and the language "glsl". -/
theorem getFactory_unregistered_language_witness :
    FactoryMap.find freshManager.mFactories sNullLang = some (NullProgramFactory 1) ∧
    FactoryMap.find freshManager.mFactories "glsl" = none ∧
    getFactory freshManager "glsl" = some (NullProgramFactory 1) ∧
    isLanguageSupported freshManager "glsl" = false :=
  ⟨rfl, rfl, getFactory_unregistered_language freshManager "glsl" (NullProgramFactory 1) rfl rfl⟩

/-! ## Presence of the null-language entry -/

/-- One sparing call keeps the null factory under the null language. -/
theorem RegistryCall.run_keeps_null_entry (nullAddr : Nat) (self : HighLevelGpuProgramManager)
    (c : RegistryCall) (hc : c.sparesNullEntry nullAddr = true)
    (hinv : FactoryMap.find self.mFactories sNullLang = some (NullProgramFactory nullAddr)) :
    FactoryMap.find (RegistryCall.run self c).mFactories sNullLang
      = some (NullProgramFactory nullAddr) := by
  cases c with
  | addFactory f =>
    have hf : f.getLanguage ≠ sNullLang := by
      simpa [RegistryCall.sparesNullEntry] using hc
    show FactoryMap.find (HighLevelGpuProgramManager.addFactory self f).mFactories sNullLang = _
    rw [find_addFactory_other self f sNullLang (Ne.symm hf), hinv]
  | removeFactory f =>
    show FactoryMap.find (HighLevelGpuProgramManager.removeFactory self f).mFactories sNullLang = _
    by_cases hf : f.getLanguage = sNullLang
    · have ha : f.addr ≠ nullAddr := by
        simpa [RegistryCall.sparesNullEntry, hf] using hc
      have hfind : FactoryMap.find self.mFactories f.getLanguage
          = some (NullProgramFactory nullAddr) := by rw [hf, hinv]
      have hother : (NullProgramFactory nullAddr).addr ≠ f.addr := fun h => ha h.symm
      rw [removeFactory_of_other self f _ hfind hother, hinv]
    · rw [find_removeFactory_other self f sNullLang (Ne.symm hf), hinv]

/-- A sequence of sparing calls keeps the null factory under the null
language. -/
theorem runCalls_keeps_null_entry (nullAddr : Nat) (calls : List RegistryCall) :
    ∀ self : HighLevelGpuProgramManager,
      (∀ c ∈ calls, RegistryCall.sparesNullEntry nullAddr c = true) →
      FactoryMap.find self.mFactories sNullLang = some (NullProgramFactory nullAddr) →
      FactoryMap.find (runCalls self calls).mFactories sNullLang
        = some (NullProgramFactory nullAddr) := by
  induction calls with
  | nil => intro self _ hinv; exact hinv
  | cons c rest ih =>
    intro self hcalls hinv
    have hc := hcalls c (List.mem_cons_self c rest)
    have hrest : ∀ d ∈ rest, RegistryCall.sparesNullEntry nullAddr d = true :=
      fun d hd => hcalls d (List.mem_cons_of_mem c hd)
    show FactoryMap.find (runCalls (RegistryCall.run self c) rest).mFactories sNullLang = _
    exact ih _ hrest (RegistryCall.run_keeps_null_entry nullAddr self c hc hinv)

/-- Calls of the registration interface do not touch the field
`mNullFactory`. -/
theorem runCalls_mNullFactory (calls : List RegistryCall) :
    ∀ self : HighLevelGpuProgramManager,
      (runCalls self calls).mNullFactory = self.mNullFactory := by
  induction calls with
  | nil => intro self; rfl
  | cons c rest ih =>
    intro self
    show (runCalls (RegistryCall.run self c) rest).mNullFactory = _
    rw [ih]
    cases c with
    | addFactory f => rfl
    | removeFactory f =>
      show (HighLevelGpuProgramManager.removeFactory self f).mNullFactory = _
      unfold HighLevelGpuProgramManager.removeFactory
      cases FactoryMap.find self.mFactories f.getLanguage with
      | none => rfl
      | some second => cases hp : second.ptrEq f <;> simp [hp]

/-- Whenever the null-language entry is present, `getFactory` returns a
factory for every language. -/
theorem HighLevelGpuProgramManager.getFactory_defined (self : HighLevelGpuProgramManager)
    (lang : String) (nullEntry : HighLevelGpuProgramFactory)
    (hnull : FactoryMap.find self.mFactories sNullLang = some nullEntry) :
    ∃ f, getFactory self lang = some f := by
  cases hlang : FactoryMap.find self.mFactories lang with
  | none => exact ⟨nullEntry, by rw [getFactory_of_absent self lang hlang, hnull]⟩
  | some second => exact ⟨second, getFactory_of_entry self lang second hlang⟩

/-- C2, as stated, fails: a plugin factory whose language is "null" is added to
a freshly constructed manager and then removed.  After the first call the
null-language entry holds the plugin factory (address 3), not the null factory
(address 1); after the second call the registry has no null-language entry and
`getFactory` has no factory to return for "glsl". -/
theorem null_entry_not_always_present :
    (FactoryMap.find overriddenManager.mFactories sNullLang).map (fun f => f.addr) = some 3 ∧
    overriddenManager.mNullFactory.addr = 1 ∧
    (FactoryMap.find strippedManager.mFactories sNullLang).isNone = true ∧
    (getFactory strippedManager "glsl").isNone = true := by
  decide

/-- C2, amended: let the unified factory installed by the constructor be of a
language other than the null language.  Immediately after construction, and
after every finite sequence of `addFactory`/`removeFactory` calls in which no
factory of the null language is added and the null factory itself is not
removed, the registry has an entry for the null language that holds the null
factory, and `getFactory` returns a factory for every language string. -/
theorem null_entry_present_after_sparing_calls (this : ResourceManagerPtr) (nullAddr : Nat)
    (unified : HighLevelGpuProgramFactory) (rgm : ResourceGroupManager)
    (calls : List RegistryCall) (lang : String)
    (hunified : unified.getLanguage ≠ sNullLang)
    (hcalls : ∀ c ∈ calls, RegistryCall.sparesNullEntry nullAddr c = true) :
    FactoryMap.find (ctor this nullAddr unified rgm).1.mFactories sNullLang
      = some (NullProgramFactory nullAddr) ∧
    FactoryMap.find (runCalls (ctor this nullAddr unified rgm).1 calls).mFactories sNullLang
      = some (NullProgramFactory nullAddr) ∧
    (runCalls (ctor this nullAddr unified rgm).1 calls).mNullFactory
      = NullProgramFactory nullAddr ∧
    ∃ f, getFactory (runCalls (ctor this nullAddr unified rgm).1 calls) lang = some f := by
  have h0 : FactoryMap.find (ctor this nullAddr unified rgm).1.mFactories sNullLang
      = some (NullProgramFactory nullAddr) := by
    show FactoryMap.find (addFactory (addFactory _ (NullProgramFactory nullAddr))
      unified).mFactories sNullLang = _
    rw [find_addFactory_other _ unified sNullLang (Ne.symm hunified)]
    exact find_addFactory_same _ (NullProgramFactory nullAddr)
  have h1 := runCalls_keeps_null_entry nullAddr calls _ hcalls h0
  exact ⟨h0, h1, runCalls_mNullFactory calls _, getFactory_defined _ lang _ h1⟩

/-- Witness of C2, amended: the constructor is run with the null factory at
address 1 and a unified factory of the language "unified", followed by
`sparingCalls`; the language looked up is "glsl". -/
theorem null_entry_present_after_sparing_calls_witness :
    (pluginFactory 2 "unified").getLanguage ≠ sNullLang ∧
    (∀ c ∈ sparingCalls, RegistryCall.sparesNullEntry 1 c = true) ∧
    FactoryMap.find (runCalls (ctor 0 1 (pluginFactory 2 "unified")
        emptyResourceGroupManager).1 sparingCalls).mFactories sNullLang
      = some (NullProgramFactory 1) ∧
    ∃ f, getFactory (runCalls (ctor 0 1 (pluginFactory 2 "unified")
        emptyResourceGroupManager).1 sparingCalls) "glsl" = some f :=
  have h := null_entry_present_after_sparing_calls 0 1 (pluginFactory 2 "unified")
    emptyResourceGroupManager sparingCalls "glsl" (by decide) (by decide)
  ⟨by decide, by decide, h.2.1, h.2.2.2⟩

/-! ## addFactory -/

/-- C3: `addFactory` is total and the last registration wins.  In every
manager state and for every factory `f`, after `addFactory(f)` the lookup
`getFactory(f.getLanguage())` returns `f` and
`isLanguageSupported(f.getLanguage())` is true, whatever the registry held
before; and after `addFactory(f1); addFactory(f2)` with factories of the same
language, `getFactory` of that language returns `f2`. -/
theorem addFactory_last_registration_wins (self : HighLevelGpuProgramManager)
    (f f1 f2 : HighLevelGpuProgramFactory) :
    getFactory (addFactory self f) f.getLanguage = some f ∧
    isLanguageSupported (addFactory self f) f.getLanguage = true ∧
    (f1.getLanguage = f2.getLanguage →
      getFactory (addFactory (addFactory self f1) f2) f1.getLanguage = some f2 ∧
      isLanguageSupported (addFactory (addFactory self f1) f2) f1.getLanguage = true) := by
  refine ⟨getFactory_of_entry _ _ _ (find_addFactory_same self f), ?_, ?_⟩
  · simp [isLanguageSupported, find_addFactory_same]
  · intro hsame
    rw [hsame]
    refine ⟨getFactory_of_entry _ _ _ (find_addFactory_same _ f2), ?_⟩
    simp [isLanguageSupported, find_addFactory_same]

/-- Witness of C3: two factories of the language "hlsl", at addresses 4 and 5,
are added to the freshly constructed manager in this order. -/
theorem addFactory_last_registration_wins_witness :
    (pluginFactory 4 "hlsl").getLanguage = (pluginFactory 5 "hlsl").getLanguage ∧
    getFactory (addFactory (addFactory freshManager (pluginFactory 4 "hlsl"))
        (pluginFactory 5 "hlsl")) (pluginFactory 4 "hlsl").getLanguage
      = some (pluginFactory 5 "hlsl") ∧
    isLanguageSupported (addFactory (addFactory freshManager (pluginFactory 4 "hlsl"))
        (pluginFactory 5 "hlsl")) (pluginFactory 4 "hlsl").getLanguage = true :=
  ⟨rfl, (addFactory_last_registration_wins freshManager (pluginFactory 5 "hlsl")
    (pluginFactory 4 "hlsl") (pluginFactory 5 "hlsl")).2.2 rfl⟩

/-! ## removeFactory -/

/-- C4: `removeFactory(f)` erases the entry for `f.getLanguage()` exactly when
that entry exists and holds the same pointer as `f` (first conjunct: the entry
was there before and is gone after, if and only if it held the pointer `f`;
second conjunct: in that case the registry is the old one with that entry
erased).  In every other case the manager is left exactly as it was (third
conjunct).  The call is total, and a second call has no further effect (last
conjunct). -/
theorem removeFactory_erases_iff_identical (self : HighLevelGpuProgramManager)
    (f : HighLevelGpuProgramFactory) :
    (((∃ g, FactoryMap.find self.mFactories f.getLanguage = some g) ∧
        FactoryMap.find (removeFactory self f).mFactories f.getLanguage = none) ↔
      ∃ g, FactoryMap.find self.mFactories f.getLanguage = some g ∧ g.addr = f.addr) ∧
    ((∃ g, FactoryMap.find self.mFactories f.getLanguage = some g ∧ g.addr = f.addr) →
      removeFactory self f
        = { self with mFactories := FactoryMap.erase self.mFactories f.getLanguage }) ∧
    ((¬ ∃ g, FactoryMap.find self.mFactories f.getLanguage = some g ∧ g.addr = f.addr) →
      removeFactory self f = self) ∧
    removeFactory (removeFactory self f) f = removeFactory self f := by
  cases hfind : FactoryMap.find self.mFactories f.getLanguage with
  | none =>
    have hrm := removeFactory_of_absent self f hfind
    refine ⟨?_, ?_, fun _ => hrm, ?_⟩
    · constructor
      · rintro ⟨⟨g, hg⟩, _⟩; cases hg
      · rintro ⟨g, hg, _⟩; cases hg
    · rintro ⟨g, hg, _⟩; cases hg
    · rw [hrm, hrm]
  | some second =>
    by_cases hsame : second.addr = f.addr
    · have hrm := removeFactory_of_same self f second hfind hsame
      have hgone : FactoryMap.find (removeFactory self f).mFactories f.getLanguage = none := by
        rw [hrm]; exact FactoryMap.find_erase_same _ _
      refine ⟨?_, fun _ => hrm, ?_, ?_⟩
      · constructor
        · intro _; exact ⟨second, rfl, hsame⟩
        · intro _; exact ⟨⟨second, rfl⟩, hgone⟩
      · intro hno; exact absurd ⟨second, rfl, hsame⟩ hno
      · exact removeFactory_of_absent _ f hgone
    · have hrm := removeFactory_of_other self f second hfind hsame
      refine ⟨?_, ?_, fun _ => hrm, ?_⟩
      · constructor
        · rintro ⟨_, hgone⟩
          rw [hrm, hfind] at hgone
          cases hgone
        · rintro ⟨g, hg, hga⟩
          cases hg
          exact absurd hga hsame
      · rintro ⟨g, hg, hga⟩
        cases hg
        exact absurd hga hsame
      · rw [hrm, hrm]

/-- Witness of C4: in `hlslTwiceManager` the entry for "hlsl" holds the factory
at address 5.  Removing that factory erases the entry; removing the overridden
factory at address 4 leaves the manager as it was. -/
theorem removeFactory_erases_iff_identical_witness :
    (∃ g, FactoryMap.find hlslTwiceManager.mFactories (pluginFactory 5 "hlsl").getLanguage
        = some g ∧ g.addr = (pluginFactory 5 "hlsl").addr) ∧
    removeFactory hlslTwiceManager (pluginFactory 5 "hlsl")
      = { hlslTwiceManager with
          mFactories := FactoryMap.erase hlslTwiceManager.mFactories "hlsl" } ∧
    (¬ ∃ g, FactoryMap.find hlslTwiceManager.mFactories (pluginFactory 4 "hlsl").getLanguage
        = some g ∧ g.addr = (pluginFactory 4 "hlsl").addr) ∧
    removeFactory hlslTwiceManager (pluginFactory 4 "hlsl") = hlslTwiceManager :=
  have hactive : ∃ g, FactoryMap.find hlslTwiceManager.mFactories
      (pluginFactory 5 "hlsl").getLanguage = some g ∧ g.addr = (pluginFactory 5 "hlsl").addr :=
    ⟨pluginFactory 5 "hlsl", rfl, rfl⟩
  have hstale : ¬ ∃ g, FactoryMap.find hlslTwiceManager.mFactories
      (pluginFactory 4 "hlsl").getLanguage = some g ∧ g.addr = (pluginFactory 4 "hlsl").addr := by
    rintro ⟨g, hg, hga⟩
    have hentry : FactoryMap.find hlslTwiceManager.mFactories
        (pluginFactory 4 "hlsl").getLanguage = some (pluginFactory 5 "hlsl") := rfl
    rw [hentry] at hg
    cases hg
    exact absurd hga (by decide)
  ⟨hactive,
    (removeFactory_erases_iff_identical hlslTwiceManager (pluginFactory 5 "hlsl")).2.1 hactive,
    hstale,
    (removeFactory_erases_iff_identical hlslTwiceManager (pluginFactory 4 "hlsl")).2.2.1 hstale⟩

/-- C5, as stated, fails.  First, take the null language for `L`: in
`overriddenManager` the entry for "null" holds the plugin factory at address 3;
after that factory is removed `isLanguageSupported("null")` is false, but
`getFactory("null")` has nothing to return, as no entry is left to fall back
on.  Second, when the null-language entry is absent beforehand: "hlsl" is
registered in `strippedManager` with the factory at address 4; after that
factory is removed `getFactory("hlsl")` has nothing to return either. -/
theorem removeFactory_active_no_fallback :
    (FactoryMap.find overriddenManager.mFactories "null").map (fun g => g.addr)
      = some (pluginFactory 3 "null").addr ∧
    isLanguageSupported (removeFactory overriddenManager (pluginFactory 3 "null")) "null"
      = false ∧
    (getFactory (removeFactory overriddenManager (pluginFactory 3 "null")) "null").isNone
      = true ∧
    (FactoryMap.find (addFactory strippedManager (pluginFactory 4 "hlsl")).mFactories
        "hlsl").map (fun g => g.addr) = some (pluginFactory 4 "hlsl").addr ∧
    (getFactory (removeFactory (addFactory strippedManager (pluginFactory 4 "hlsl"))
        (pluginFactory 4 "hlsl")) "hlsl").isNone = true := by
  decide

/-- C5, amended: in every manager state in which the null-language entry is
present, for every language `L` other than the null language and every factory
`f` of that language whose pointer is the one stored under `L`, after
`removeFactory(f)` the call `getFactory(L)` returns the factory stored under
the null language and `isLanguageSupported(L)` is false. -/
theorem removeFactory_active_falls_back (self : HighLevelGpuProgramManager) (L : String)
    (f g nullEntry : HighLevelGpuProgramFactory)
    (hL : f.getLanguage = L)
    (hreg : FactoryMap.find self.mFactories L = some g)
    (hsame : g.addr = f.addr)
    (hne : L ≠ sNullLang)
    (hnull : FactoryMap.find self.mFactories sNullLang = some nullEntry) :
    getFactory (removeFactory self f) L = some nullEntry ∧
    isLanguageSupported (removeFactory self f) L = false := by
  subst hL
  have hrm := removeFactory_of_same self f g hreg hsame
  have hgone : FactoryMap.find (removeFactory self f).mFactories f.getLanguage = none := by
    rw [hrm]; exact FactoryMap.find_erase_same _ _
  have hkeep : FactoryMap.find (removeFactory self f).mFactories sNullLang = some nullEntry := by
    rw [find_removeFactory_other self f sNullLang (Ne.symm hne), hnull]
  constructor
  · rw [getFactory_of_absent _ _ hgone, hkeep]
  · simp [isLanguageSupported, hgone]

/-- Witness of C5, amended: in `hlslTwiceManager` the factory at address 5 is
the entry for "hlsl"; after its removal "hlsl" resolves to the null factory. -/
theorem removeFactory_active_falls_back_witness :
    (pluginFactory 5 "hlsl").getLanguage = "hlsl" ∧
    FactoryMap.find hlslTwiceManager.mFactories "hlsl" = some (pluginFactory 5 "hlsl") ∧
    (pluginFactory 5 "hlsl").addr = (pluginFactory 5 "hlsl").addr ∧
    "hlsl" ≠ sNullLang ∧
    FactoryMap.find hlslTwiceManager.mFactories sNullLang = some (NullProgramFactory 1) ∧
    getFactory (removeFactory hlslTwiceManager (pluginFactory 5 "hlsl")) "hlsl"
      = some (NullProgramFactory 1) ∧
    isLanguageSupported (removeFactory hlslTwiceManager (pluginFactory 5 "hlsl")) "hlsl"
      = false :=
  ⟨rfl, rfl, rfl, by decide, rfl,
    removeFactory_active_falls_back hlslTwiceManager "hlsl" (pluginFactory 5 "hlsl")
      (pluginFactory 5 "hlsl") (NullProgramFactory 1) rfl rfl rfl (by decide) rfl⟩

/-- C6: `removeFactory(f)` for a factory whose language is not the reserved
null language neither removes nor changes the null-language entry: the lookup
of the null language gives the same result before and after the call. -/
theorem removeFactory_keeps_null_entry (self : HighLevelGpuProgramManager)
    (f : HighLevelGpuProgramFactory) (hf : f.getLanguage ≠ sNullLang) :
    FactoryMap.find (removeFactory self f).mFactories sNullLang
      = FactoryMap.find self.mFactories sNullLang :=
  find_removeFactory_other self f sNullLang (Ne.symm hf)

/-- Witness of C6: the unified factory is removed from the freshly constructed
manager (the call does erase the entry for "unified"). -/
theorem removeFactory_keeps_null_entry_witness :
    (pluginFactory 2 "unified").getLanguage ≠ sNullLang ∧
    FactoryMap.find (removeFactory freshManager (pluginFactory 2 "unified")).mFactories sNullLang
      = FactoryMap.find freshManager.mFactories sNullLang :=
  ⟨by decide, removeFactory_keeps_null_entry freshManager (pluginFactory 2 "unified")
    (by decide)⟩

/-! ## isLanguageSupported against getFactory -/

/-- C7: `isLanguageSupported(lang)` is true if and only if the registry holds
an entry under exactly the key `lang`; `getFactory(lang)` returns the entry
stored under `lang` when `isLanguageSupported(lang)` is true and the entry
stored under the null language otherwise; so for a language without an entry,
in a registry that has the null-language entry, `isLanguageSupported` is false
while `getFactory` still returns a factory, the one of the null language. -/
theorem isLanguageSupported_is_direct_lookup (self : HighLevelGpuProgramManager)
    (lang : String) :
    (isLanguageSupported self lang = true ↔
      ∃ f, FactoryMap.find self.mFactories lang = some f) ∧
    getFactory self lang
      = (if isLanguageSupported self lang = true then FactoryMap.find self.mFactories lang
         else FactoryMap.find self.mFactories sNullLang) ∧
    (∀ nullEntry, FactoryMap.find self.mFactories lang = none →
      FactoryMap.find self.mFactories sNullLang = some nullEntry →
      isLanguageSupported self lang = false ∧ getFactory self lang = some nullEntry) := by
  cases hfind : FactoryMap.find self.mFactories lang with
  | none =>
    refine ⟨?_, ?_, ?_⟩
    · simp [isLanguageSupported, hfind]
    · simp [isLanguageSupported, hfind, getFactory]
    · intro nullEntry _ hnull
      refine ⟨by simp [isLanguageSupported, hfind], ?_⟩
      rw [getFactory_of_absent self lang hfind, hnull]
  | some second =>
    refine ⟨?_, ?_, ?_⟩
    · simp [isLanguageSupported, hfind]
    · simp [isLanguageSupported, hfind, getFactory]
    · intro nullEntry habsent _
      cases habsent

/-- Witness of C7: the language "cg" in `hlslTwiceManager`. -/
theorem isLanguageSupported_is_direct_lookup_witness :
    FactoryMap.find hlslTwiceManager.mFactories "cg" = none ∧
    FactoryMap.find hlslTwiceManager.mFactories sNullLang = some (NullProgramFactory 1) ∧
    isLanguageSupported hlslTwiceManager "cg" = false ∧
    getFactory hlslTwiceManager "cg" = some (NullProgramFactory 1) :=
  ⟨rfl, rfl,
    (isLanguageSupported_is_direct_lookup hlslTwiceManager "cg").2.2 (NullProgramFactory 1)
      rfl rfl⟩

/-! ## createImpl -/

/-- C8: `createImpl` fails with the invalid-parameters exception if and only
if the parameter map is absent or has no "language" key (first conjunct).
When it fails so, the call returns nothing but the exception and leaves the
manager exactly as it was, next-handle counter included; the outcome is the
same for every registry, so no factory is looked up and no language is put in
place of the missing key (second conjunct). -/
theorem createImpl_invalid_params_iff (self : HighLevelGpuProgramManager) (name : String)
    (handle : ResourceHandle) (group : String) (isManual : Bool)
    (loader : Option ManualResourceLoader) (params : Option NameValuePairList) :
    ((∃ description source,
        (createImpl self name handle group isManual loader params).1
          = Except.error (Failure.exception ExceptionCodes.ERR_INVALIDPARAMS description source)) ↔
      (params = none ∨ ∃ p, params = some p ∧ NameValuePairList.find p "language" = none)) ∧
    ((params = none ∨ ∃ p, params = some p ∧ NameValuePairList.find p "language" = none) →
      createImpl self name handle group isManual loader params
        = (Except.error languageParameterMissing, self)) := by
  cases params with
  | none =>
    refine ⟨⟨fun _ => Or.inl rfl, fun _ => ⟨_, _, rfl⟩⟩, fun _ => rfl⟩
  | some p =>
    cases hkey : NameValuePairList.find p "language" with
    | none =>
      have hres : createImpl self name handle group isManual loader (some p)
          = (Except.error languageParameterMissing, self) := by
        simp [createImpl, hkey]
      refine ⟨⟨fun _ => Or.inr ⟨p, rfl, hkey⟩, fun _ => ?_⟩, fun _ => hres⟩
      rw [hres]
      exact ⟨_, _, rfl⟩
    | some language =>
      have hno : ¬ (some p = none ∨
          ∃ q, some p = some q ∧ NameValuePairList.find q "language" = none) := by
        rintro (h | ⟨q, hq, hnone⟩)
        · cases h
        · cases hq
          rw [hkey] at hnone
          cases hnone
      refine ⟨⟨?_, fun h => absurd h hno⟩, fun h => absurd h hno⟩
      rintro ⟨description, source, hfail⟩
      exfalso
      cases hfac : getFactory self language with
      | none => simp [createImpl, hkey, hfac] at hfail
      | some factory => simp [createImpl, hkey, hfac] at hfail

/-- Witness of C8: `createImpl` on the freshly constructed manager with the
empty parameter map. -/
theorem createImpl_invalid_params_iff_witness :
    ((some [] : Option NameValuePairList) = none ∨
      ∃ p, (some [] : Option NameValuePairList) = some p ∧
        NameValuePairList.find p "language" = none) ∧
    createImpl freshManager "prog" 7 "General" false none (some [])
      = (Except.error languageParameterMissing, freshManager) :=
  have hempty : (some [] : Option NameValuePairList) = none ∨
      ∃ p, (some [] : Option NameValuePairList) = some p ∧
        NameValuePairList.find p "language" = none :=
    Or.inr ⟨[], rfl, rfl⟩
  ⟨hempty,
    (createImpl_invalid_params_iff freshManager "prog" 7 "General" false none (some [])).2
      hempty⟩

/-- C9, as stated, fails: in `strippedManager`, which has no null-language entry
and no entry for "glsl", the parameter map holds the key "language" with the
value "glsl", and `createImpl` does not succeed: `getFactory("glsl")`
dereferences `end()`. -/
theorem createImpl_with_language_undefined :
    NameValuePairList.find [("language", "glsl")] "language" = some "glsl" ∧
    (createImpl strippedManager "prog" 7 "General" false none
        (some [("language", "glsl")])).1 = Except.error Failure.endDereferenced :=
  ⟨rfl, rfl⟩

/-- C9, amended: for every parameter map that holds the key "language" with a
value `L`, and every manager state in which `getFactory(L)` returns a factory,
`createImpl` succeeds and returns the object which that factory builds from
the given name, group, manual flag and loader (with the manager as creator and
the next handle of the manager).  In particular, in a manager whose
null-language entry is the built-in null factory and that has no entry for
`L`, it succeeds and the program it returns is not supported. -/
theorem createImpl_with_language (self : HighLevelGpuProgramManager) (name : String)
    (handle : ResourceHandle) (group : String) (isManual : Bool)
    (loader : Option ManualResourceLoader) (p : NameValuePairList) (L : String)
    (hkey : NameValuePairList.find p "language" = some L) :
    (∀ factory, getFactory self L = some factory →
      createImpl self name handle group isManual loader (some p)
        = (Except.ok (factory.create self.this name self.mNextHandle group isManual loader),
            (getNextHandle self).2)) ∧
    (∀ nullAddr, FactoryMap.find self.mFactories sNullLang = some (NullProgramFactory nullAddr) →
      FactoryMap.find self.mFactories L = none →
      (createImpl self name handle group isManual loader (some p)).1
          = Except.ok (NullProgram.new self.this name self.mNextHandle group isManual loader) ∧
        (NullProgram.new self.this name self.mNextHandle group isManual loader).isSupported
          = false) := by
  have hgen : ∀ factory, getFactory self L = some factory →
      createImpl self name handle group isManual loader (some p)
        = (Except.ok (factory.create self.this name self.mNextHandle group isManual loader),
            (getNextHandle self).2) := by
    intro factory hfac
    simp [createImpl, hkey, hfac, getNextHandle]
  refine ⟨hgen, ?_⟩
  intro nullAddr hnull hlang
  have hfac : getFactory self L = some (NullProgramFactory nullAddr) := by
    rw [getFactory_of_absent self L hlang, hnull]
  refine ⟨?_, rfl⟩
  rw [hgen _ hfac]
  rfl

/-- Witness of C9, amended: the freshly constructed manager has no "glsl"
factory; `createImpl` with the map holding "language" = "glsl" returns a null
program. -/
theorem createImpl_with_language_witness :
    NameValuePairList.find [("language", "glsl")] "language" = some "glsl" ∧
    getFactory freshManager "glsl" = some (NullProgramFactory 1) ∧
    createImpl freshManager "prog" 7 "General" false none (some [("language", "glsl")])
      = (Except.ok (NullProgram.new 0 "prog" 1 "General" false none),
          (getNextHandle freshManager).2) :=
  ⟨rfl, rfl,
    (createImpl_with_language freshManager "prog" 7 "General" false none
      [("language", "glsl")] "glsl" rfl).1 (NullProgramFactory 1) rfl⟩

/-! ## createProgram -/

/-- C10, as stated, fails.  In `overriddenManager` a plugin factory of the
language "null" is the null-language entry, and the language
"nulllang-that-does-not-exist" has no registered factory; `createProgram`
returns a program of the plugin class, which reports itself supported.  In
`strippedManager`, which has no null-language entry, the same call does not
return a program: `getFactory` dereferences `end()`. -/
theorem createProgram_unregistered_not_always_unsupported :
    isLanguageSupported overriddenManager "nulllang-that-does-not-exist" = false ∧
    (createProgram overriddenManager emptyResourceGroupManager "foo" "General"
        "nulllang-that-does-not-exist" GpuProgramType.GPT_VERTEX_PROGRAM).1
      = Except.ok (some
          (((GpuProgram.ctor (ProgramClass.external true "null" 0) 0 "foo" 1 "General" false
              none).setType GpuProgramType.GPT_VERTEX_PROGRAM).setSyntaxCode
            "nulllang-that-does-not-exist")) ∧
    (((GpuProgram.ctor (ProgramClass.external true "null" 0) 0 "foo" 1 "General" false
        none).setType GpuProgramType.GPT_VERTEX_PROGRAM).setSyntaxCode
      "nulllang-that-does-not-exist").isSupported = true ∧
    isLanguageSupported strippedManager "nulllang-that-does-not-exist" = false ∧
    (createProgram strippedManager emptyResourceGroupManager "foo" "General"
        "nulllang-that-does-not-exist" GpuProgramType.GPT_VERTEX_PROGRAM).1
      = Except.error Failure.endDereferenced :=
  ⟨rfl, rfl, rfl, rfl, rfl⟩

/-- C10, amended: in every manager state whose null-language entry is the
built-in null factory, for every name, group and program type and every
language string with no registered factory, `createProgram` raises no error
and returns a non-empty pointer to a null program (built with the manager as
creator and its next handle, then given the requested type and syntax code),
whose `isSupported()` is false. -/
theorem createProgram_unregistered_language (self : HighLevelGpuProgramManager)
    (rgm : ResourceGroupManager) (name groupName language : String) (gptype : GpuProgramType)
    (nullAddr : Nat)
    (hnull : FactoryMap.find self.mFactories sNullLang = some (NullProgramFactory nullAddr))
    (hlang : FactoryMap.find self.mFactories language = none) :
    (createProgram self rgm name groupName language gptype).1
      = Except.ok (some (((NullProgram.new self.this name self.mNextHandle groupName false
          none).setType gptype).setSyntaxCode language)) ∧
    (((NullProgram.new self.this name self.mNextHandle groupName false
        none).setType gptype).setSyntaxCode language).isSupported = false := by
  have hfac : getFactory self language = some (NullProgramFactory nullAddr) := by
    rw [getFactory_of_absent self language hlang, hnull]
  refine ⟨?_, rfl⟩
  simp [createProgram, hfac, addImpl, getNextHandle, NullProgramFactory]

/-- Witness of C10, amended: the call of the spec on the freshly constructed
manager. -/
theorem createProgram_unregistered_language_witness :
    FactoryMap.find freshManager.mFactories sNullLang = some (NullProgramFactory 1) ∧
    FactoryMap.find freshManager.mFactories "nulllang-that-does-not-exist" = none ∧
    (createProgram freshManager emptyResourceGroupManager "foo" "General"
        "nulllang-that-does-not-exist" GpuProgramType.GPT_VERTEX_PROGRAM).1
      = Except.ok (some (((NullProgram.new freshManager.this "foo" freshManager.mNextHandle
          "General" false none).setType GpuProgramType.GPT_VERTEX_PROGRAM).setSyntaxCode
            "nulllang-that-does-not-exist")) ∧
    (((NullProgram.new freshManager.this "foo" freshManager.mNextHandle "General" false
        none).setType GpuProgramType.GPT_VERTEX_PROGRAM).setSyntaxCode
      "nulllang-that-does-not-exist").isSupported = false :=
  ⟨rfl, rfl,
    createProgram_unregistered_language freshManager emptyResourceGroupManager "foo" "General"
      "nulllang-that-does-not-exist" GpuProgramType.GPT_VERTEX_PROGRAM 1 rfl rfl⟩

/-! ## getByName -/

/-- What `createProgram` returns when `getFactory` has a factory for the
language: the built program, the manager after `addImpl`, and the resource
group manager after the notification. -/
theorem HighLevelGpuProgramManager.createProgram_of_factory (self : HighLevelGpuProgramManager)
    (rgm : ResourceGroupManager) (name groupName language : String) (gptype : GpuProgramType)
    (factory : HighLevelGpuProgramFactory) (hfac : getFactory self language = some factory) :
    createProgram self rgm name groupName language gptype
      = (Except.ok (some (builtProgram self factory name groupName language gptype)),
          (addImpl (getNextHandle self).2
            (some (builtProgram self factory name groupName language gptype))).2,
          rgm._notifyResourceCreated (builtProgram self factory name groupName language gptype)) := by
  simp [createProgram, hfac, addImpl, builtProgram]

/-- When `getFactory` has no factory to return, `createProgram` returns no
program. -/
theorem HighLevelGpuProgramManager.createProgram_of_undefined (self : HighLevelGpuProgramManager)
    (rgm : ResourceGroupManager) (name groupName language : String) (gptype : GpuProgramType)
    (hfac : getFactory self language = none) :
    createProgram self rgm name groupName language gptype
      = (Except.error Failure.endDereferenced, self, rgm) := by
  simp [createProgram, hfac]

/-- The cache after `addImpl` of a program: the program under its own group
and name, the old content elsewhere. -/
theorem HighLevelGpuProgramManager.mResources_addImpl (self : HighLevelGpuProgramManager)
    (r : GpuProgram) (g n : String) :
    (addImpl self (some r)).2.mResources g n
      = if g = r.group ∧ n = r.name then some r else self.mResources g n := by
  simp [addImpl]

/-- C11: let `createProgram(name, group, language, type)` return the program
`p`, built by the factory under the name and group it was asked for.  Then
`getByName(name, group)` on the manager after the call returns `p`; for every
group other than `group` in which the cache held no program of that name,
`getByName` still returns an empty pointer; and `getByName`, a `const` method,
only reads the cache: it returns what the cache holds under the group and
name, an empty pointer where the cache holds nothing. -/
theorem getByName_after_createProgram (self self1 : HighLevelGpuProgramManager)
    (rgm rgm1 : ResourceGroupManager) (name group language : String) (gptype : GpuProgramType)
    (p : GpuProgram)
    (hcreate : createProgram self rgm name group language gptype
      = (Except.ok (some p), self1, rgm1))
    (hname : p.name = name) (hgroup : p.group = group) :
    getByName self1 name group = some p ∧
    (∀ other, other ≠ group → getByName self name other = none →
      getByName self1 name other = none) ∧
    (∀ n g, getByName self1 n g = self1.mResources g n) ∧
    (∀ n g, self1.mResources g n = none → getByName self1 n g = none) := by
  cases hfac : getFactory self language with
  | none =>
    rw [createProgram_of_undefined self rgm name group language gptype hfac] at hcreate
    simp at hcreate
  | some factory =>
    rw [createProgram_of_factory self rgm name group language gptype factory hfac] at hcreate
    simp only [Prod.mk.injEq, Except.ok.injEq, Option.some.injEq] at hcreate
    obtain ⟨hp, hself, -⟩ := hcreate
    rw [hp] at hself
    subst hself
    refine ⟨?_, ?_, fun _ _ => rfl, fun _ _ h => h⟩
    · show (addImpl (getNextHandle self).2 (some p)).2.mResources group name = some p
      rw [mResources_addImpl]
      simp [hname, hgroup]
    · intro other hother habsent
      show (addImpl (getNextHandle self).2 (some p)).2.mResources other name = none
      rw [mResources_addImpl]
      have hne : ¬ (other = p.group ∧ name = p.name) := fun h => hother (h.1.trans hgroup)
      rw [if_neg hne]
      exact habsent

/-- Witness of C11: `createProgram("foo", "General", "glsl", fragment program)`
on the freshly constructed manager returns `fooProgram` and leaves
`fooManager`; the program is found under ("foo", "General") and not under
("foo", "Other"). -/
theorem getByName_after_createProgram_witness :
    createProgram freshManager emptyResourceGroupManager "foo" "General" "glsl"
        GpuProgramType.GPT_FRAGMENT_PROGRAM
      = (Except.ok (some fooProgram), fooManager,
          emptyResourceGroupManager._notifyResourceCreated fooProgram) ∧
    fooProgram.name = "foo" ∧ fooProgram.group = "General" ∧
    getByName fooManager "foo" "General" = some fooProgram ∧
    ("Other" ≠ "General" ∧ getByName freshManager "foo" "Other" = none) ∧
    getByName fooManager "foo" "Other" = none :=
  have h := getByName_after_createProgram freshManager fooManager emptyResourceGroupManager
    (emptyResourceGroupManager._notifyResourceCreated fooProgram) "foo" "General" "glsl"
    GpuProgramType.GPT_FRAGMENT_PROGRAM fooProgram rfl rfl rfl
  ⟨rfl, rfl, rfl, h.1, ⟨by decide, rfl⟩, h.2.1 "Other" (by decide) rfl⟩

/-! ## The handle used by createImpl -/

/-- C12, the code at a concrete call: on the freshly constructed manager, whose
next-handle counter is 1, `createImpl` is called with the handle 7 and the map
holding "language" = "glsl".  The null program it returns carries the handle 1,
taken from `getNextHandle()`, not the handle 7 of the caller, and the counter
of the manager is 2 afterwards. -/
theorem createImpl_takes_handle_from_counter :
    freshManager.mNextHandle = 1 ∧
    (createImpl freshManager "prog" 7 "General" false none (some [("language", "glsl")])).1
      = Except.ok (NullProgram.new 0 "prog" 1 "General" false none) ∧
    (NullProgram.new 0 "prog" 1 "General" false none).handle = 1 ∧
    (createImpl freshManager "prog" 7 "General" false none
      (some [("language", "glsl")])).2.mNextHandle = 2 :=
  ⟨rfl, rfl, rfl, rfl⟩

/-! ## What createProgram builds -/

/-- C13: when `getFactory(language)` returns a factory, `createProgram(name,
group, language, type)` returns the program which that factory builds from the
name, the next handle, the group, the manual flag `false` and no loader, after
its type and syntax code are assigned: the type of the returned program is the
requested type and its syntax code is the requested language string.  The
program is in the cache afterwards, under its own group and name, which are
`group` and `name` when the factory builds the program under the name and
group it is given; and the resource group manager has been notified of exactly
that program, once.  All of this holds as well when the factory is the null
factory, reached by the fallback. -/
theorem createProgram_builds_types_caches_notifies (self : HighLevelGpuProgramManager)
    (rgm : ResourceGroupManager) (name group language : String) (gptype : GpuProgramType)
    (factory : HighLevelGpuProgramFactory) (hfac : getFactory self language = some factory) :
    (createProgram self rgm name group language gptype).1
      = Except.ok (some (((factory.create self.this name self.mNextHandle group false
          none).setType gptype).setSyntaxCode language)) ∧
    (builtProgram self factory name group language gptype)
      = ((factory.create self.this name self.mNextHandle group false none).setType
          gptype).setSyntaxCode language ∧
    (builtProgram self factory name group language gptype).mType = gptype ∧
    (builtProgram self factory name group language gptype).mSyntaxCode = language ∧
    (createProgram self rgm name group language gptype).2.1.mResources
        (builtProgram self factory name group language gptype).group
        (builtProgram self factory name group language gptype).name
      = some (builtProgram self factory name group language gptype) ∧
    ((factory.create self.this name self.mNextHandle group false none).name = name →
      (factory.create self.this name self.mNextHandle group false none).group = group →
      getByName (createProgram self rgm name group language gptype).2.1 name group
        = some (builtProgram self factory name group language gptype)) ∧
    (createProgram self rgm name group language gptype).2.2.mCreated
      = rgm.mCreated ++ [builtProgram self factory name group language gptype] ∧
    (∀ nullAddr, factory = NullProgramFactory nullAddr →
      builtProgram self factory name group language gptype
        = ((NullProgram.new self.this name self.mNextHandle group false none).setType
            gptype).setSyntaxCode language ∧
      getByName (createProgram self rgm name group language gptype).2.1 name group
        = some (builtProgram self factory name group language gptype)) := by
  have hrun := createProgram_of_factory self rgm name group language gptype factory hfac
  have hcache : ∀ g n, (createProgram self rgm name group language gptype).2.1.mResources g n
      = if g = (builtProgram self factory name group language gptype).group ∧
          n = (builtProgram self factory name group language gptype).name
        then some (builtProgram self factory name group language gptype)
        else (getNextHandle self).2.mResources g n := by
    intro g n
    rw [hrun]
    exact mResources_addImpl _ _ g n
  refine ⟨by rw [hrun]; rfl, rfl, rfl, rfl, ?_, ?_, by rw [hrun]; rfl, ?_⟩
  · rw [hcache]; simp
  · intro hname hgroup
    show (createProgram self rgm name group language gptype).2.1.mResources group name = _
    rw [hcache]
    have hn : (builtProgram self factory name group language gptype).name = name := hname
    have hg : (builtProgram self factory name group language gptype).group = group := hgroup
    simp [hn, hg]
  · intro nullAddr hnull
    subst hnull
    refine ⟨rfl, ?_⟩
    show (createProgram self rgm name group language gptype).2.1.mResources group name = _
    rw [hcache]
    have hn : (builtProgram self (NullProgramFactory nullAddr) name group language
        gptype).name = name := rfl
    have hg : (builtProgram self (NullProgramFactory nullAddr) name group language
        gptype).group = group := rfl
    simp [hn, hg]

/-- Witness of C13: `createProgram("bar", "General", "hlsl", compute program)`
on `hlslTwiceManager`, where the factory at address 5 is registered for
"hlsl". -/
theorem createProgram_builds_types_caches_notifies_witness :
    getFactory hlslTwiceManager "hlsl" = some (pluginFactory 5 "hlsl") ∧
    (createProgram hlslTwiceManager emptyResourceGroupManager "bar" "General" "hlsl"
        GpuProgramType.GPT_COMPUTE_PROGRAM).1
      = Except.ok (some ((((pluginFactory 5 "hlsl").create hlslTwiceManager.this "bar"
          hlslTwiceManager.mNextHandle "General" false none).setType
            GpuProgramType.GPT_COMPUTE_PROGRAM).setSyntaxCode "hlsl")) ∧
    (createProgram hlslTwiceManager emptyResourceGroupManager "bar" "General" "hlsl"
        GpuProgramType.GPT_COMPUTE_PROGRAM).2.2.mCreated
      = emptyResourceGroupManager.mCreated ++
          [builtProgram hlslTwiceManager (pluginFactory 5 "hlsl") "bar" "General" "hlsl"
            GpuProgramType.GPT_COMPUTE_PROGRAM] :=
  have h := createProgram_builds_types_caches_notifies hlslTwiceManager
    emptyResourceGroupManager "bar" "General" "hlsl" GpuProgramType.GPT_COMPUTE_PROGRAM
    (pluginFactory 5 "hlsl") rfl
  ⟨rfl, h.1, h.2.2.2.2.2.2.1⟩

/-! ## The null program and the null factory -/

/-- C14: every program which the null factory produces, at whatever address the
factory lives and from whatever arguments, is of the class `NullProgram`: its
`isSupported()` is false, its `setParameter(name, value)` returns true for
every name and value and leaves the object as it is, its `calculateSize()` is
0, its `getLanguage()` is the reserved name "null", its `loadFromSource` and
`unloadImpl` leave it as it is; and `getLanguage()` of the null factory is the
same reserved name. -/
theorem null_factory_produces_null_programs (addr : Nat) (creator : ResourceManagerPtr)
    (name : String) (handle : ResourceHandle) (group : String) (isManual : Bool)
    (loader : Option ManualResourceLoader) (parameter value : String) :
    ((NullProgramFactory addr).create creator name handle group isManual loader).cls
      = ProgramClass.NullProgram ∧
    (NullProgramFactory addr).create creator name handle group isManual loader
      = NullProgram.new creator name handle group isManual loader ∧
    ((NullProgramFactory addr).create creator name handle group isManual loader).isSupported
      = false ∧
    NullProgram.setParameter
        ((NullProgramFactory addr).create creator name handle group isManual loader)
        parameter value
      = (true, (NullProgramFactory addr).create creator name handle group isManual loader) ∧
    ((NullProgramFactory addr).create creator name handle group isManual loader).calculateSize
      = 0 ∧
    ((NullProgramFactory addr).create creator name handle group isManual loader).getLanguage
      = "null" ∧
    NullProgram.loadFromSource
        ((NullProgramFactory addr).create creator name handle group isManual loader)
      = (NullProgramFactory addr).create creator name handle group isManual loader ∧
    NullProgram.unloadImpl
        ((NullProgramFactory addr).create creator name handle group isManual loader)
      = (NullProgramFactory addr).create creator name handle group isManual loader ∧
    (NullProgramFactory addr).getLanguage = "null" ∧
    sNullLang = "null" :=
  ⟨rfl, rfl, rfl, rfl, rfl, rfl, rfl, rfl, rfl, rfl⟩

/-! ## Keys and languages -/

/-- The registry with no entry stores every entry under its language. -/
theorem FactoryMap.keysAreLanguages_empty : FactoryMap.keysAreLanguages FactoryMap.empty := by
  intro key f h
  cases h

/-- The call `addFactory` keeps every entry under the language of its factory. -/
theorem HighLevelGpuProgramManager.keysAreLanguages_addFactory
    (self : HighLevelGpuProgramManager) (factory : HighLevelGpuProgramFactory)
    (h : FactoryMap.keysAreLanguages self.mFactories) :
    FactoryMap.keysAreLanguages (addFactory self factory).mFactories := by
  intro key f hfind
  by_cases hk : key = factory.getLanguage
  · subst hk
    rw [find_addFactory_same] at hfind
    cases hfind
    rfl
  · rw [find_addFactory_other self factory key hk] at hfind
    exact h key f hfind

/-- The call `removeFactory` keeps every entry under the language of its
factory. -/
theorem HighLevelGpuProgramManager.keysAreLanguages_removeFactory
    (self : HighLevelGpuProgramManager) (factory : HighLevelGpuProgramFactory)
    (h : FactoryMap.keysAreLanguages self.mFactories) :
    FactoryMap.keysAreLanguages (removeFactory self factory).mFactories := by
  intro key f hfind
  by_cases hk : key = factory.getLanguage
  · subst hk
    cases hentry : FactoryMap.find self.mFactories factory.getLanguage with
    | none =>
      rw [removeFactory_of_absent self factory hentry] at hfind
      exact h _ f hfind
    | some second =>
      by_cases hsame : second.addr = factory.addr
      · rw [removeFactory_of_same self factory second hentry hsame] at hfind
        rw [FactoryMap.find_erase_same] at hfind
        cases hfind
      · rw [removeFactory_of_other self factory second hentry hsame] at hfind
        exact h _ f hfind
  · rw [find_removeFactory_other self factory key hk] at hfind
    exact h key f hfind

/-- A sequence of registry calls keeps every entry under the language of its
factory. -/
theorem keysAreLanguages_runCalls (calls : List RegistryCall) :
    ∀ self : HighLevelGpuProgramManager, FactoryMap.keysAreLanguages self.mFactories →
      FactoryMap.keysAreLanguages (runCalls self calls).mFactories := by
  induction calls with
  | nil => intro self h; exact h
  | cons c rest ih =>
    intro self h
    show FactoryMap.keysAreLanguages (runCalls (RegistryCall.run self c) rest).mFactories
    apply ih
    cases c with
    | addFactory f => exact keysAreLanguages_addFactory self f h
    | removeFactory f => exact keysAreLanguages_removeFactory self f h

/-- C15: a factory value answers the same language at every call (its language
is stable).  In every registry state reached from the constructor by a finite
sequence of `addFactory`/`removeFactory` calls, every entry is stored under the
`getLanguage()` of its factory.  Hence a factory returned by `getFactory(lang)`
is of the language `lang` or of the reserved null language, and when the null
entry is present `getFactory(lang)` does return such a factory. -/
theorem registry_keys_are_languages (this : ResourceManagerPtr) (nullAddr : Nat)
    (unified : HighLevelGpuProgramFactory) (rgm : ResourceGroupManager)
    (calls : List RegistryCall) :
    (∀ key f, FactoryMap.find (runCalls (ctor this nullAddr unified rgm).1 calls).mFactories key
        = some f → f.getLanguage = key) ∧
    (∀ lang f, getFactory (runCalls (ctor this nullAddr unified rgm).1 calls) lang = some f →
      f.getLanguage = lang ∨ f.getLanguage = sNullLang) ∧
    (∀ lang nullEntry,
      FactoryMap.find (runCalls (ctor this nullAddr unified rgm).1 calls).mFactories sNullLang
        = some nullEntry →
      ∃ f, getFactory (runCalls (ctor this nullAddr unified rgm).1 calls) lang = some f ∧
        (f.getLanguage = lang ∨ f.getLanguage = sNullLang)) := by
  have hctor : FactoryMap.keysAreLanguages (ctor this nullAddr unified rgm).1.mFactories := by
    show FactoryMap.keysAreLanguages
      (addFactory (addFactory _ (NullProgramFactory nullAddr)) unified).mFactories
    apply keysAreLanguages_addFactory
    apply keysAreLanguages_addFactory
    exact FactoryMap.keysAreLanguages_empty
  have hkeys := keysAreLanguages_runCalls calls _ hctor
  have hget : ∀ lang f,
      getFactory (runCalls (ctor this nullAddr unified rgm).1 calls) lang = some f →
      f.getLanguage = lang ∨ f.getLanguage = sNullLang := by
    intro lang f hf
    cases hentry : FactoryMap.find
        (runCalls (ctor this nullAddr unified rgm).1 calls).mFactories lang with
    | none =>
      rw [getFactory_of_absent _ lang hentry] at hf
      exact Or.inr (hkeys _ f hf)
    | some second =>
      rw [getFactory_of_entry _ lang second hentry] at hf
      cases hf
      exact Or.inl (hkeys _ _ hentry)
  refine ⟨hkeys, hget, ?_⟩
  intro lang nullEntry hnull
  obtain ⟨f, hf⟩ := getFactory_defined _ lang nullEntry hnull
  exact ⟨f, hf, hget lang f hf⟩

/-- Witness of C15: the constructor followed by `sparingCalls`; the entry under
"null" is the null factory, whose language is "null". -/
theorem registry_keys_are_languages_witness :
    FactoryMap.find (runCalls (ctor 0 1 (pluginFactory 2 "unified")
        emptyResourceGroupManager).1 sparingCalls).mFactories "null"
      = some (NullProgramFactory 1) ∧
    (NullProgramFactory 1).getLanguage = "null" :=
  ⟨rfl, (registry_keys_are_languages 0 1 (pluginFactory 2 "unified")
    emptyResourceGroupManager sparingCalls).1 "null" (NullProgramFactory 1) rfl⟩

/-! ## addFactory followed by removeFactory -/

/-- The call `removeFactory(f)` right after `addFactory(f)` erases the entry
just assigned. -/
theorem HighLevelGpuProgramManager.removeFactory_addFactory (self : HighLevelGpuProgramManager)
    (f : HighLevelGpuProgramFactory) :
    removeFactory (addFactory self f) f
      = { self with mFactories := FactoryMap.erase self.mFactories f.getLanguage } := by
  rw [removeFactory_of_same (addFactory self f) f f (find_addFactory_same self f) rfl]
  have hmap : FactoryMap.erase (addFactory self f).mFactories f.getLanguage
      = FactoryMap.erase self.mFactories f.getLanguage := by
    funext k
    by_cases hk : k = f.getLanguage <;> simp [FactoryMap.erase, addFactory, FactoryMap.assign, hk]
  rw [hmap]
  rfl

/-- C16, as stated, fails for the null language.  In the freshly constructed
manager "null" is registered to the null factory (address 1).  A plugin factory
of the language "null" (address 3) is added and removed again: "null" has no
entry afterwards and `isLanguageSupported("null")` is false, but
`getFactory("null")` does not fall back to the null factory: it has no entry
to return. -/
theorem override_of_null_language_no_fallback :
    (FactoryMap.find freshManager.mFactories "null").map (fun g => g.addr) = some 1 ∧
    (pluginFactory 3 "null").addr = 3 ∧
    (FactoryMap.find (removeFactory (addFactory freshManager (pluginFactory 3 "null"))
      (pluginFactory 3 "null")).mFactories "null").isNone = true ∧
    isLanguageSupported (removeFactory (addFactory freshManager (pluginFactory 3 "null"))
      (pluginFactory 3 "null")) "null" = false ∧
    (getFactory (removeFactory (addFactory freshManager (pluginFactory 3 "null"))
      (pluginFactory 3 "null")) "null").isNone = true := by
  decide

/-- C16, amended: write `L` for `f.getLanguage()`.  If `L` had no entry,
`addFactory(f)` followed by `removeFactory(f)` gives back exactly the manager
it started from.  If `L` was registered to an earlier factory `g`, different
from `f`, the two calls do not reinstate `g`: `L` has no entry afterwards and
`isLanguageSupported(L)` is false; and when `L` is not the null language and
the null-language entry is present, `getFactory(L)` falls back to the factory
stored under the null language. -/
theorem addFactory_removeFactory_is_destructive (self : HighLevelGpuProgramManager)
    (f : HighLevelGpuProgramFactory) :
    (FactoryMap.find self.mFactories f.getLanguage = none →
      removeFactory (addFactory self f) f = self) ∧
    (∀ g, FactoryMap.find self.mFactories f.getLanguage = some g → g.addr ≠ f.addr →
      FactoryMap.find (removeFactory (addFactory self f) f).mFactories f.getLanguage = none ∧
      isLanguageSupported (removeFactory (addFactory self f) f) f.getLanguage = false ∧
      (∀ nullEntry, f.getLanguage ≠ sNullLang →
        FactoryMap.find self.mFactories sNullLang = some nullEntry →
        getFactory (removeFactory (addFactory self f) f) f.getLanguage = some nullEntry)) := by
  have hrm := removeFactory_addFactory self f
  have hgone : FactoryMap.find (removeFactory (addFactory self f) f).mFactories f.getLanguage
      = none := by
    rw [hrm]; exact FactoryMap.find_erase_same _ _
  constructor
  · intro habsent
    rw [hrm]
    have hmap : FactoryMap.erase self.mFactories f.getLanguage = self.mFactories := by
      funext k
      by_cases hk : k = f.getLanguage
      · subst hk
        simpa [FactoryMap.erase, FactoryMap.find] using habsent.symm
      · simp [FactoryMap.erase, hk]
    rw [hmap]
  · intro g _ _
    refine ⟨hgone, by simp [isLanguageSupported, hgone], ?_⟩
    intro nullEntry hne hnull
    rw [getFactory_of_absent _ _ hgone, hrm]
    show FactoryMap.find (FactoryMap.erase self.mFactories f.getLanguage) sNullLang = _
    rw [FactoryMap.find_erase_other _ _ _ (Ne.symm hne), hnull]

/-- Witness of C16, amended: on the freshly constructed manager, where "cg" has
no entry, adding and removing a factory for "cg" gives the manager back; on
`hlslTwiceManager`, where "hlsl" is registered to the factory at address 5,
adding and removing the factory at address 7 leaves "hlsl" without entry and
resolved to the null factory. -/
theorem addFactory_removeFactory_is_destructive_witness :
    (FactoryMap.find freshManager.mFactories (pluginFactory 6 "cg").getLanguage = none ∧
      removeFactory (addFactory freshManager (pluginFactory 6 "cg")) (pluginFactory 6 "cg")
        = freshManager) ∧
    (FactoryMap.find hlslTwiceManager.mFactories (pluginFactory 7 "hlsl").getLanguage
        = some (pluginFactory 5 "hlsl") ∧
      (pluginFactory 5 "hlsl").addr ≠ (pluginFactory 7 "hlsl").addr ∧
      (pluginFactory 7 "hlsl").getLanguage ≠ sNullLang ∧
      FactoryMap.find hlslTwiceManager.mFactories sNullLang = some (NullProgramFactory 1) ∧
      isLanguageSupported (removeFactory (addFactory hlslTwiceManager (pluginFactory 7 "hlsl"))
        (pluginFactory 7 "hlsl")) (pluginFactory 7 "hlsl").getLanguage = false ∧
      getFactory (removeFactory (addFactory hlslTwiceManager (pluginFactory 7 "hlsl"))
        (pluginFactory 7 "hlsl")) (pluginFactory 7 "hlsl").getLanguage
          = some (NullProgramFactory 1)) :=
  have h := (addFactory_removeFactory_is_destructive hlslTwiceManager
    (pluginFactory 7 "hlsl")).2 (pluginFactory 5 "hlsl") rfl (by decide)
  ⟨⟨rfl, (addFactory_removeFactory_is_destructive freshManager (pluginFactory 6 "cg")).1 rfl⟩,
    rfl, by decide, by decide, rfl, h.2.1, h.2.2 (NullProgramFactory 1) (by decide) rfl⟩

/-! ## A plugin factory of the null language -/

/-- C17: the fallback is whatever is stored under the reserved null language.
After `addFactory(f)` for a factory `f` whose `getLanguage()` is "null",
`getFactory(lang)` returns `f` for every language string `lang` that had no
entry of its own, whatever the null-language entry held before; and for such a
language `createProgram`, and `createImpl` with a parameter map that holds
"language" = `lang`, return the object built by `f`. -/
theorem null_language_factory_is_fallback (self : HighLevelGpuProgramManager)
    (rgm : ResourceGroupManager) (f : HighLevelGpuProgramFactory) (lang name group : String)
    (handle : ResourceHandle) (isManual : Bool) (loader : Option ManualResourceLoader)
    (gptype : GpuProgramType) (params : NameValuePairList)
    (hf : f.getLanguage = sNullLang)
    (hlang : FactoryMap.find self.mFactories lang = none)
    (hkey : NameValuePairList.find params "language" = some lang) :
    getFactory (addFactory self f) lang = some f ∧
    (createProgram (addFactory self f) rgm name group lang gptype).1
      = Except.ok (some (((f.create self.this name self.mNextHandle group false none).setType
          gptype).setSyntaxCode lang)) ∧
    (createImpl (addFactory self f) name handle group isManual loader (some params)).1
      = Except.ok (f.create self.this name self.mNextHandle group isManual loader) := by
  have hget : getFactory (addFactory self f) lang = some f := by
    by_cases hl : lang = f.getLanguage
    · subst hl
      exact getFactory_of_entry _ _ _ (find_addFactory_same self f)
    · have habsent : FactoryMap.find (addFactory self f).mFactories lang = none := by
        rw [find_addFactory_other self f lang hl, hlang]
      rw [getFactory_of_absent _ _ habsent, ← hf]
      exact find_addFactory_same self f
  refine ⟨hget, ?_, ?_⟩
  · rw [createProgram_of_factory _ rgm name group lang gptype f hget]
    rfl
  · have hrun : createImpl (addFactory self f) name handle group isManual loader (some params)
        = (Except.ok (f.create (addFactory self f).this name (addFactory self f).mNextHandle
            group isManual loader), (getNextHandle (addFactory self f)).2) := by
      simp [createImpl, hkey, hget, getNextHandle]
    rw [hrun]
    rfl

/-- Witness of C17: the plugin factory of the language "null" at address 3 is
added to the freshly constructed manager; "glsl" has no entry of its own. -/
theorem null_language_factory_is_fallback_witness :
    (pluginFactory 3 "null").getLanguage = sNullLang ∧
    FactoryMap.find freshManager.mFactories "glsl" = none ∧
    NameValuePairList.find [("language", "glsl")] "language" = some "glsl" ∧
    getFactory (addFactory freshManager (pluginFactory 3 "null")) "glsl"
      = some (pluginFactory 3 "null") ∧
    (createImpl (addFactory freshManager (pluginFactory 3 "null")) "prog" 7 "General" false
        none (some [("language", "glsl")])).1
      = Except.ok ((pluginFactory 3 "null").create freshManager.this "prog"
          freshManager.mNextHandle "General" false none) :=
  have h := null_language_factory_is_fallback freshManager emptyResourceGroupManager
    (pluginFactory 3 "null") "glsl" "prog" "General" 7 false none
    GpuProgramType.GPT_VERTEX_PROGRAM [("language", "glsl")] rfl rfl rfl
  ⟨rfl, rfl, rfl, h.1, h.2.2⟩

/-! ## Lookups do not change the registry -/

/-- C18: the calls `getFactory(lang)` and `isLanguageSupported(lang)` return what
the functions `getFactory` and `isLanguageSupported` compute and leave the
manager, its registry included, exactly as it was, for every language string.
In particular, after `getFactory` has resolved a language without entry, the
language still has no entry and `isLanguageSupported` is still false. -/
theorem lookups_leave_registry_unchanged (self : HighLevelGpuProgramManager) (lang : String) :
    (getFactoryCall self lang).2 = self ∧
    (getFactoryCall self lang).1 = getFactory self lang ∧
    (isLanguageSupportedCall self lang).2 = self ∧
    (isLanguageSupportedCall self lang).1 = isLanguageSupported self lang ∧
    (FactoryMap.find self.mFactories lang = none →
      FactoryMap.find (getFactoryCall self lang).2.mFactories lang = none ∧
      isLanguageSupported (getFactoryCall self lang).2 lang = false ∧
      (isLanguageSupportedCall (getFactoryCall self lang).2 lang).1 = false) := by
  have hstate : (getFactoryCall self lang).2 = self := by
    unfold getFactoryCall
    cases hfind : FactoryMap.find self.mFactories lang <;>
      simp [FactoryMap.findCall, hfind]
  have hresult : (getFactoryCall self lang).1 = getFactory self lang := by
    unfold getFactoryCall getFactory
    cases hfind : FactoryMap.find self.mFactories lang <;>
      simp [FactoryMap.findCall, hfind]
  refine ⟨hstate, hresult, rfl, rfl, ?_⟩
  intro hfind
  rw [hstate]
  refine ⟨hfind, ?_, ?_⟩
  · simp [isLanguageSupported, hfind]
  · simp [isLanguageSupportedCall, FactoryMap.findCall, hfind]

/-- Witness of C18: the language "glsl" is resolved on the freshly constructed
manager. -/
theorem lookups_leave_registry_unchanged_witness :
    FactoryMap.find freshManager.mFactories "glsl" = none ∧
    FactoryMap.find (getFactoryCall freshManager "glsl").2.mFactories "glsl" = none ∧
    isLanguageSupported (getFactoryCall freshManager "glsl").2 "glsl" = false :=
  have h := (lookups_leave_registry_unchanged freshManager "glsl").2.2.2.2 rfl
  ⟨rfl, h.1, h.2.1⟩

/-! ## The entries which a registry call may touch -/

/-- C19: `addFactory(f)` and `removeFactory(f)` touch at most the entry stored
under `f.getLanguage()`: for every other language string `K`, the lookup of
`K`, hence the presence of an entry for `K` and the factory stored under it,
is the same before and after either call. -/
theorem registry_calls_touch_one_key (self : HighLevelGpuProgramManager)
    (f : HighLevelGpuProgramFactory) (K : String) (hK : K ≠ f.getLanguage) :
    FactoryMap.find (addFactory self f).mFactories K = FactoryMap.find self.mFactories K ∧
    isLanguageSupported (addFactory self f) K = isLanguageSupported self K ∧
    FactoryMap.find (removeFactory self f).mFactories K = FactoryMap.find self.mFactories K ∧
    isLanguageSupported (removeFactory self f) K = isLanguageSupported self K := by
  have hadd := find_addFactory_other self f K hK
  have hrm := find_removeFactory_other self f K hK
  refine ⟨hadd, ?_, hrm, ?_⟩
  · simp [isLanguageSupported, hadd]
  · simp [isLanguageSupported, hrm]

/-- Witness of C19: on `hlslTwiceManager`, calls made with the factory at
address 5 of the language "hlsl" leave the entry for "unified" alone. -/
theorem registry_calls_touch_one_key_witness :
    "unified" ≠ (pluginFactory 5 "hlsl").getLanguage ∧
    FactoryMap.find (addFactory hlslTwiceManager (pluginFactory 5 "hlsl")).mFactories "unified"
      = FactoryMap.find hlslTwiceManager.mFactories "unified" ∧
    FactoryMap.find (removeFactory hlslTwiceManager (pluginFactory 5 "hlsl")).mFactories
        "unified"
      = FactoryMap.find hlslTwiceManager.mFactories "unified" :=
  have h := registry_calls_touch_one_key hlslTwiceManager (pluginFactory 5 "hlsl") "unified"
    (by decide)
  ⟨by decide, h.1, h.2.2.1⟩

end Ogre
